import Mathlib

/-!
Verification of the routine recurrence / task-generation core of the
todo_app repository (src/core/routines.py, src/core/tasks.py), as a
shallow embedding in Lean 4.

Python `datetime` values are modelled as a calendar date (year, month,
day, each a natural number) plus a time-of-day tick count; comparisons
are lexicographic, exactly as Python compares datetimes field by field.
Day arithmetic goes through the proleptic-Gregorian ordinal, exactly as
`datetime.date.toordinal` does.  Python `%` and `//` on int are
`Int.fmod` and `Int.fdiv` (floor convention); `% 0` raises
ZeroDivisionError, which the embedding represents with `Except`.
-/

namespace TodoApp

instance {ε α : Type} [DecidableEq ε] [DecidableEq α] : DecidableEq (Except ε α) := fun a b =>
  match a, b with
  | .error e1, .error e2 =>
    if h : e1 = e2 then .isTrue (by rw [h]) else .isFalse (by intro hh; cases hh; exact h rfl)
  | .error _, .ok _ => .isFalse (by intro hh; cases hh)
  | .ok _, .error _ => .isFalse (by intro hh; cases hh)
  | .ok a1, .ok a2 =>
    if h : a1 = a2 then .isTrue (by rw [h]) else .isFalse (by intro hh; cases hh; exact h rfl)

/-- Calendar date as stored in a Python `datetime`: year, month, day. -/
structure Date where
  year : Nat
  month : Nat
  day : Nat
deriving DecidableEq, Repr

/-- A Python `datetime`: a date plus a time-of-day expressed as a single
tick count (microseconds since midnight); only ordering and equality of
the time component matter to the code under verification. -/
structure DateTime where
  date : Date
  tod : Nat
deriving DecidableEq, Repr

/-- Gregorian leap-year test, as in `calendar.isleap`. -/
def isLeapYear (y : Nat) : Bool :=
  (y % 4 == 0 && y % 100 != 0) || y % 400 == 0

/-- Days in the months strictly before month `m` of a common year. -/
def monthOffset : Nat → Nat
  | 1 => 0
  | 2 => 31
  | 3 => 59
  | 4 => 90
  | 5 => 120
  | 6 => 151
  | 7 => 181
  | 8 => 212
  | 9 => 243
  | 10 => 273
  | 11 => 304
  | 12 => 334
  | _ => 0

/-- `datetime.date.toordinal`: day number in the proleptic Gregorian
calendar, with 0001-01-01 as day 1. -/
def Date.toOrdinal (d : Date) : Nat :=
  365 * (d.year - 1) + (d.year - 1) / 4 - (d.year - 1) / 100 + (d.year - 1) / 400 +
    monthOffset d.month + (if 2 < d.month && isLeapYear d.year then 1 else 0) + d.day

/-- `datetime.date.weekday`: Monday = 0 .. Sunday = 6. -/
def Date.weekday (d : Date) : Nat :=
  (d.toOrdinal + 6) % 7

/-- Python `date` comparison: lexicographic on (year, month, day). -/
def Date.lt (a b : Date) : Bool :=
  a.year < b.year ||
    (a.year == b.year &&
      (a.month < b.month || (a.month == b.month && a.day < b.day)))

/-- Python `datetime` comparison: lexicographic on date then time. -/
def DateTime.lt (a b : DateTime) : Bool :=
  Date.lt a.date b.date || (a.date == b.date && a.tod < b.tod)

/-- `datetime.replace(hour=0, minute=0, second=0, microsecond=0)`. -/
def truncateMidnight (dt : DateTime) : DateTime :=
  ⟨dt.date, 0⟩

/-- Characters removed by Python `str.strip()` (the ASCII ones; the code
under verification only ever strips ASCII text). -/
def isPySpace (c : Char) : Bool :=
  c = ' ' || c = '\t' || c = '\n' || c = '\r' || c = Char.ofNat 11 || c = Char.ofNat 12

/-- Strip leading and trailing whitespace from a character list. -/
def stripChars (cs : List Char) : List Char :=
  ((cs.dropWhile isPySpace).reverse.dropWhile isPySpace).reverse

/-- Python `str.strip()`. -/
def pyStrip (s : String) : String :=
  ⟨stripChars s.data⟩

/-- The decimal digit character for `n % 10`. -/
def digitChar (n : Nat) : Char :=
  Char.ofNat (48 + n % 10)

/-- Decimal digits of `n`, most significant first, via fuelled recursion
so that the kernel can evaluate it. -/
def natCharsAux : Nat → Nat → List Char
  | 0, _ => []
  | fuel + 1, n =>
    if n < 10 then [digitChar n]
    else natCharsAux fuel (n / 10) ++ [digitChar (n % 10)]

/-- Decimal digits of `n`, most significant first. -/
def natChars (n : Nat) : List Char :=
  natCharsAux (n + 1) n

/-- Zero-pad the decimal digits of `n` on the left to width `w`. -/
def padChars (w n : Nat) : List Char :=
  List.replicate (w - (natChars n).length) '0' ++ natChars n

/-- `date.strftime('%Y-%m-%d')`: zero-padded year-month-day. -/
def formatYMD (d : Date) : String :=
  ⟨padChars 4 d.year ++ ('-' :: padChars 2 d.month) ++ ('-' :: padChars 2 d.day)⟩

/-- `RepeatType` enum from src/core/routines.py. -/
inductive RepeatType where
  | daily
  | weekly
  | monthly
  | weekdays
  | weekends
  | custom
deriving DecidableEq, Repr

/-- A task template added by `Routine.add_task_template` (the open-ended
`kwargs` bag carries no information the core reads back). -/
structure Template where
  title : String
  description : String
deriving DecidableEq, Repr

/-- The fields of `Routine` (src/core/routines.py) that the recurrence
and generation logic reads or writes.  `preferred_time` is a
time-of-day tick count, matching the `tod` field of `DateTime`. -/
structure Routine where
  routine_id : Option Nat
  name : String
  description : String
  user_id : Option Nat
  repeat_type : RepeatType
  is_active : Bool
  last_generated : Option DateTime
  start_date : DateTime
  end_date : Option DateTime
  preferred_time : Option Nat
  task_templates : List Template
  custom_days : List Nat
  repeat_interval : Int
deriving DecidableEq, Repr

/-- The fields of `Task` (src/core/tasks.py) that task generation
populates; hierarchy is recorded through `parent_id`, as the spec's
arena design note prescribes. -/
structure Task where
  task_id : Option Nat
  title : String
  description : String
  completed : Bool
  parent_id : Option Nat
  user_id : Option Nat
  due_date : Option DateTime
deriving DecidableEq, Repr

/-- The task store visible to the core: the auto-increment id counter
and the persisted rows, in creation order. -/
structure Store where
  nextId : Nat
  saved : List Task
deriving DecidableEq, Repr

/-- `TaskManager.create_task`: strips the title and description, raises
`ValueError` on a blank title, otherwise persists a fresh task under the
next auto-increment id and returns it. -/
def create_task (s : Store) (title description : String)
    (user_id parent_id : Option Nat) : Except String (Task × Store) :=
  if pyStrip title = "" then .error "Task title cannot be empty"
  else
    let t : Task :=
      { task_id := some s.nextId, title := pyStrip title,
        description := pyStrip description, completed := false,
        parent_id := parent_id, user_id := user_id, due_date := none }
    .ok (t, { nextId := s.nextId + 1, saved := s.saved ++ [t] })

/-- `TaskManager.update_task`: overwrite the stored row with the same id. -/
def update_task (s : Store) (t : Task) : Store :=
  { s with saved := s.saved.map (fun u => if u.task_id = t.task_id then t else u) }

/-- `Routine._matches_repeat_pattern` (src/core/routines.py:123-158).

The MONTHLY branch embeds the source exactly as written.  Its closing
parenthesis falls after `self.start_date.month`, so Python applies
`% self.repeat_interval == 0` to the entire `and`-expression: when the
day-of-month test is false the `and` yields the bool `False`, which
Python treats as the integer 0, so the branch computes `0 % interval == 0`;
when the day-of-month test is true the `and` yields the month
difference.  `% 0` raises ZeroDivisionError, represented as `.error`. -/
def matches_repeat_pattern (r : Routine) (target_date : DateTime) : Except String Bool :=
  let weekday := target_date.date.weekday
  match r.repeat_type with
  | .daily =>
    if r.repeat_interval = 0 then .error "ZeroDivisionError"
    else
      let days_since_start : Int :=
        (target_date.date.toOrdinal : Int) - (r.start_date.date.toOrdinal : Int)
      .ok (Int.fmod days_since_start r.repeat_interval == 0)
  | .weekly =>
    if r.repeat_interval = 0 then .error "ZeroDivisionError"
    else
      let weeks_since_start : Int :=
        Int.fdiv ((target_date.date.toOrdinal : Int) - (r.start_date.date.toOrdinal : Int)) 7
      .ok (Int.fmod weeks_since_start r.repeat_interval == 0 &&
        weekday == r.start_date.date.weekday)
  | .monthly =>
    if r.repeat_interval = 0 then .error "ZeroDivisionError"
    else
      let and_value : Int :=
        if target_date.date.day == r.start_date.date.day then
          ((target_date.date.year : Int) - (r.start_date.date.year : Int)) * 12 +
            ((target_date.date.month : Int) - (r.start_date.date.month : Int))
        else 0
      .ok (Int.fmod and_value r.repeat_interval == 0)
  | .weekdays => .ok (weekday < 5)
  | .weekends => .ok (decide (5 ≤ weekday))
  | .custom => .ok (r.custom_days.contains weekday)

/-- The `self.end_date and target_date > self.end_date` guard of
`should_generate_today`. -/
def end_date_blocks (r : Routine) (target_date : DateTime) : Bool :=
  match r.end_date with
  | some e => DateTime.lt e target_date
  | none => false

/-- The `self.last_generated and self.last_generated.date() ==
target_date.date()` guard of `should_generate_today`. -/
def already_generated (r : Routine) (target_date : DateTime) : Bool :=
  match r.last_generated with
  | some lg => lg.date == target_date.date
  | none => false

/-- `Routine.should_generate_today` (src/core/routines.py:92-121).
`now` stands for `datetime.now()`, consulted only when no target date is
supplied. -/
def should_generate_today (r : Routine) (target_opt : Option DateTime)
    (now : DateTime) : Except String Bool :=
  if r.is_active = false then .ok false
  else
    let target_date := target_opt.getD (truncateMidnight now)
    if DateTime.lt target_date r.start_date then .ok false
    else if end_date_blocks r target_date then .ok false
    else if already_generated r target_date then .ok false
    else matches_repeat_pattern r target_date

/-- The per-template loop of `Routine.generate_tasks`
(src/core/routines.py:191-209): build the title (date-suffixed when the
routine has exactly one template), create the task with the synthetic
parent's id, and when a preferred time is set, stamp the due date and
persist the update. -/
def generate_from_templates (r : Routine) (target_date : DateTime)
    (parent_id : Option Nat) (single : Bool) :
    List Template → Store → Except String (List Task × Store)
  | [], s => .ok ([], s)
  | tpl :: rest, s =>
    let title :=
      if single then tpl.title ++ " - " ++ formatYMD target_date.date else tpl.title
    match create_task s title tpl.description r.user_id parent_id with
    | .error e => .error e
    | .ok (task0, s1) =>
      let step :=
        match r.preferred_time with
        | some pt =>
          let t1 := { task0 with due_date := some ⟨target_date.date, pt⟩ }
          (t1, update_task s1 t1)
        | none => (task0, s1)
      match generate_from_templates r target_date parent_id single rest step.2 with
      | .error e => .error e
      | .ok (restTasks, s2) => .ok (step.1 :: restTasks, s2)

/-- `Routine.generate_tasks` (src/core/routines.py:160-214).  Returns
the generated tasks, the routine with its updated `last_generated`
bookkeeping, and the updated store; `now` is the wall-clock instant of
the call. -/
def generate_tasks (r : Routine) (s : Store) (target_opt : Option DateTime)
    (now : DateTime) : Except String (List Task × Routine × Store) :=
  match should_generate_today r target_opt now with
  | .error e => .error e
  | .ok false => .ok ([], r, s)
  | .ok true =>
    let target_date := target_opt.getD (truncateMidnight now)
    let single := r.task_templates.length == 1
    if 1 < r.task_templates.length then
      match create_task s (r.name ++ " - " ++ formatYMD target_date.date)
          r.description r.user_id none with
      | .error e => .error e
      | .ok (parent, s1) =>
        match generate_from_templates r target_date parent.task_id single
            r.task_templates s1 with
        | .error e => .error e
        | .ok (children, s2) =>
          .ok (parent :: children, { r with last_generated := some now }, s2)
    else
      match generate_from_templates r target_date none single r.task_templates s with
      | .error e => .error e
      | .ok (children, s2) =>
        .ok (children, { r with last_generated := some now }, s2)

/-- `RoutineManager.generate_routine_tasks` (src/core/routines.py:322-344),
with the storage-returned list of the user's active routines as input.
Returns all generated tasks, the routines passed to `update_routine`
(exactly those whose generation produced at least one task, in order),
and the final store. -/
def generate_routine_tasks (routines : List Routine) (s : Store)
    (target_opt : Option DateTime) (now : DateTime) :
    Except String (List Task × List Routine × Store) :=
  match routines with
  | [] => .ok ([], [], s)
  | r :: rest =>
    match generate_tasks r s target_opt now with
    | .error e => .error e
    | .ok (ts, r1, s1) =>
      match generate_routine_tasks rest s1 target_opt now with
      | .error e => .error e
      | .ok (restTs, upds, s2) =>
        .ok (ts ++ restTs, (if ts.isEmpty then upds else r1 :: upds), s2)

/-- Specification-level recomputation for the scheduler facade: invoke
the generator once per routine in storage order, threading the store,
and record each routine's result separately.  Used to state claim C7's
concatenation / persist-iff-nonempty property against
`generate_routine_tasks`. -/
def generator_chain (routines : List Routine) (s : Store)
    (target_opt : Option DateTime) (now : DateTime) :
    Except String (List (List Task × Routine) × Store) :=
  match routines with
  | [] => .ok ([], s)
  | r :: rest =>
    match generate_tasks r s target_opt now with
    | .error e => .error e
    | .ok (ts, r1, s1) =>
      match generator_chain rest s1 target_opt now with
      | .error e => .error e
      | .ok (pairs, s2) => .ok ((ts, r1) :: pairs, s2)

/-- The recurrence condition exactly as claim C1 states it for MONTHLY
routines: same day-of-month as the start date, and a whole number of
`repeat_interval` months since the start. -/
def monthly_claim_matches (r : Routine) (target_date : DateTime) : Bool :=
  target_date.date.day == r.start_date.date.day &&
    Int.fmod (((target_date.date.year : Int) - (r.start_date.date.year : Int)) * 12 +
      ((target_date.date.month : Int) - (r.start_date.date.month : Int)))
      r.repeat_interval == 0

/-- The two validation-error messages the repository's creation-time
checks can raise (`TaskManager.create_task`,
`RoutineManager.create_routine`). -/
def is_validation_error (e : String) : Prop :=
  e = "Task title cannot be empty" ∨ e = "Routine name cannot be empty"

instance (e : String) : Decidable (is_validation_error e) := by
  unfold is_validation_error
  infer_instance

/-- The in-memory `Task` hierarchy of src/core/tasks.py as used by
`mark_completed`: the completion state together with the list of child
tasks (the spec's task tree; back-references to the parent carry no
information relevant to completion). -/
inductive TNode where
  | mk (completed : Bool) (completed_at : Option DateTime) (updated_at : DateTime)
      (children : List TNode)

/-- The `completed` flag of a task node. -/
def TNode.completed : TNode → Bool
  | .mk c _ _ _ => c

/-- The `completed_at` timestamp of a task node. -/
def TNode.completed_at : TNode → Option DateTime
  | .mk _ ca _ _ => ca

/-- The `updated_at` timestamp of a task node. -/
def TNode.updated_at : TNode → DateTime
  | .mk _ _ ua _ => ua

/-- The `children` list of a task node. -/
def TNode.children : TNode → List TNode
  | .mk _ _ _ ch => ch

mutual

/-- `Task.mark_completed` (src/core/tasks.py:58-72): set the flag and the
timestamps on this task and, only when marking as completed, recurse into
every child.  `now` stands for `datetime.now()`. -/
def mark_completed (completed : Bool) (now : DateTime) : TNode → TNode
  | .mk _ _ _ ch =>
    .mk completed (if completed then some now else none) now
      (if completed then mark_completed_list completed now ch else ch)

/-- The `for child in self.children: child.mark_completed(True)` loop. -/
def mark_completed_list (completed : Bool) (now : DateTime) : List TNode → List TNode
  | [] => []
  | t :: ts => mark_completed completed now t :: mark_completed_list completed now ts

end

mutual

/-- A task node together with all of its descendants is completed. -/
def subtree_completed : TNode → Bool
  | .mk c _ _ ch => c && forest_completed ch

/-- Every task in the list, with all descendants, is completed. -/
def forest_completed : List TNode → Bool
  | [] => true
  | t :: ts => subtree_completed t && forest_completed ts

end

/-- `Descendant d t`: `d` lies somewhere in the children tree below `t`. -/
inductive Descendant : TNode → TNode → Prop
  | child {d t : TNode} : d ∈ t.children → Descendant d t
  | step {d c t : TNode} : c ∈ t.children → Descendant d c → Descendant d t

/-! ### Support lemmas: the recurrence evaluator -/

theorem should_fire_inv {r : Routine} {t now : DateTime}
    (h : should_generate_today r (some t) now = .ok true) :
    r.is_active = true ∧ DateTime.lt t r.start_date = false ∧
      end_date_blocks r t = false ∧ already_generated r t = false ∧
      matches_repeat_pattern r t = .ok true := by
  unfold should_generate_today at h
  simp only [Option.getD_some] at h
  split_ifs at h with h1 h2 h3 h4 <;> try exact absurd h (by simp)
  exact ⟨by simpa using h1, by simpa using h2, by simpa using h3, by simpa using h4, h⟩

theorem should_fire_of (r : Routine) (t : DateTime) (now : DateTime)
    (h1 : r.is_active = true) (h2 : DateTime.lt t r.start_date = false)
    (h3 : end_date_blocks r t = false) (h4 : already_generated r t = false) :
    should_generate_today r (some t) now = matches_repeat_pattern r t := by
  unfold should_generate_today
  simp [h1, h2, h3, h4]

theorem should_blocked (r : Routine) (t : DateTime) (now : DateTime)
    (h1 : r.is_active = true) (h4 : already_generated r t = true)
    (h2 : DateTime.lt t r.start_date = false)
    (h3 : end_date_blocks r t = false) :
    should_generate_today r (some t) now = .ok false := by
  unfold should_generate_today
  simp [h1, h2, h3, h4]

theorem matches_lastgen_congr (r : Routine) (x : Option DateTime) (t : DateTime) :
    matches_repeat_pattern { r with last_generated := x } t = matches_repeat_pattern r t := rfl

theorem matches_error_inv {r : Routine} {t : DateTime} {e : String}
    (h : matches_repeat_pattern r t = .error e) : e = "ZeroDivisionError" := by
  unfold matches_repeat_pattern at h
  rcases r with ⟨rid, nm, ds, uid, rt, ia, lg, sd, ed, pt, tt, cd, ri⟩
  cases rt <;> dsimp only at h <;>
    first
      | (split_ifs at h <;> simp_all)
      | exact absurd h (by simp)

theorem should_error_inv {r : Routine} {topt : Option DateTime} {now : DateTime} {e : String}
    (h : should_generate_today r topt now = .error e) : e = "ZeroDivisionError" := by
  unfold should_generate_today at h
  dsimp only at h
  split_ifs at h
  all_goals first
    | exact absurd h (by simp)
    | exact matches_error_inv h

theorem matches_total (r : Routine) (t : DateTime) (h : r.repeat_interval ≠ 0) :
    ∃ b, matches_repeat_pattern r t = .ok b := by
  unfold matches_repeat_pattern
  rcases r with ⟨rid, nm, ds, uid, rt, ia, lg, sd, ed, pt, tt, cd, ri⟩
  simp only at h
  cases rt <;> simp [h]

theorem should_total (r : Routine) (topt : Option DateTime) (now : DateTime)
    (h : r.repeat_interval ≠ 0) :
    ∃ b, should_generate_today r topt now = .ok b := by
  unfold should_generate_today
  dsimp only
  split_ifs <;> first
    | exact ⟨false, rfl⟩
    | exact matches_total r _ h

/-! ### Support lemmas: strings -/

theorem stripChars_ne_nil_of_mem {cs : List Char} {c : Char} (hc : c ∈ cs)
    (hw : isPySpace c = false) : stripChars cs ≠ [] := by
  intro h
  unfold stripChars at h
  have h2 : (cs.dropWhile isPySpace).reverse.dropWhile isPySpace = [] := by
    have := congrArg List.reverse h
    simpa using this
  have hcdrop : c ∈ cs.dropWhile isPySpace := by
    have hsplit : cs.takeWhile isPySpace ++ cs.dropWhile isPySpace = cs :=
      List.takeWhile_append_dropWhile isPySpace cs
    rw [← hsplit] at hc
    rcases List.mem_append.mp hc with htake | hdrop
    · exact absurd (List.mem_takeWhile_imp htake) (by simp [hw])
    · exact hdrop
  have hall := List.dropWhile_eq_nil_iff.mp h2
  have := hall c (List.mem_reverse.mpr hcdrop)
  simp [hw] at this

theorem pyStrip_ne_empty (c : Char) {s : String} (hc : c ∈ s.data)
    (hw : isPySpace c = false) : pyStrip s ≠ "" := by
  intro h
  have : stripChars s.data = [] := congrArg String.data h
  exact stripChars_ne_nil_of_mem hc hw this

/-- A title of the shape `x ++ " - " ++ y` never strips to the empty
string: the dash survives. -/
theorem pyStrip_dash_ne_empty (x y : String) : pyStrip (x ++ " - " ++ y) ≠ "" := by
  apply pyStrip_ne_empty '-'
  · rw [String.data_append, String.data_append]
    refine List.mem_append.mpr (.inl (List.mem_append.mpr (.inr ?_)))
    decide
  · decide

/-! ### Support lemmas: the task generator -/

theorem create_task_ok (s : Store) (title desc : String) (uid pid : Option Nat)
    (h : pyStrip title ≠ "") :
    ∃ task s1, create_task s title desc uid pid = .ok (task, s1) ∧
      task.title = pyStrip title ∧ task.parent_id = pid ∧ task.task_id = some s.nextId := by
  unfold create_task
  rw [if_neg h]
  exact ⟨_, _, rfl, rfl, rfl, rfl⟩

theorem generate_from_templates_ok (r : Routine) (td : DateTime) (pid : Option Nat)
    (single : Bool) (tpls : List Template) (s : Store)
    (h : ∀ tpl ∈ tpls,
      pyStrip (if single then tpl.title ++ " - " ++ formatYMD td.date else tpl.title) ≠ "") :
    ∃ tasks s2, generate_from_templates r td pid single tpls s = .ok (tasks, s2) ∧
      tasks.map Task.title = tpls.map
        (fun tpl => pyStrip (if single then tpl.title ++ " - " ++ formatYMD td.date else tpl.title)) ∧
      (∀ c ∈ tasks, c.parent_id = pid) ∧ tasks.length = tpls.length := by
  induction tpls generalizing s with
  | nil => exact ⟨[], s, rfl, rfl, by simp, rfl⟩
  | cons tpl rest ih =>
    obtain ⟨task, s1, hct, hti, hpid, hid⟩ :=
      create_task_ok s (if single then tpl.title ++ " - " ++ formatYMD td.date else tpl.title)
        tpl.description r.user_id pid (h tpl (by simp))
    have hrest : ∀ x ∈ rest,
        pyStrip (if single then x.title ++ " - " ++ formatYMD td.date else x.title) ≠ "" :=
      fun x hx => h x (by simp [hx])
    unfold generate_from_templates
    dsimp only
    rw [hct]
    cases hpt : r.preferred_time with
    | none =>
      dsimp only
      obtain ⟨restTasks, s2, hgen, hmap, hpids, hlen⟩ := ih s1 hrest
      rw [hgen]
      refine ⟨task :: restTasks, s2, rfl, ?_, ?_, ?_⟩
      · simp [hti, hmap]
      · intro c hc
        rcases List.mem_cons.mp hc with rfl | hc
        · exact hpid
        · exact hpids c hc
      · simp [hlen]
    | some pt =>
      dsimp only
      obtain ⟨restTasks, s2, hgen, hmap, hpids, hlen⟩ :=
        ih (update_task s1 { task with due_date := some ⟨td.date, pt⟩ }) hrest
      rw [hgen]
      refine ⟨{ task with due_date := some ⟨td.date, pt⟩ } :: restTasks, s2, rfl, ?_, ?_, ?_⟩
      · simp [hti, hmap]
      · intro c hc
        rcases List.mem_cons.mp hc with rfl | hc
        · exact hpid
        · exact hpids c hc
      · simp [hlen]

theorem generate_tasks_not_fire {r : Routine} (s : Store) {target_opt : Option DateTime}
    {now : DateTime} (h : should_generate_today r target_opt now = .ok false) :
    generate_tasks r s target_opt now = .ok ([], r, s) := by
  unfold generate_tasks
  rw [h]

theorem templates_cond_of_clean {r : Routine} (td : DateTime)
    (hclean : ∀ tpl ∈ r.task_templates, pyStrip tpl.title ≠ "") :
    ∀ tpl ∈ r.task_templates,
      pyStrip (if (r.task_templates.length == 1 : Bool) then
        tpl.title ++ " - " ++ formatYMD td.date else tpl.title) ≠ "" := by
  intro tpl htpl
  cases hs : (r.task_templates.length == 1 : Bool) with
  | true => simpa [hs] using pyStrip_dash_ne_empty tpl.title (formatYMD td.date)
  | false => simpa [hs] using hclean tpl htpl

theorem generate_tasks_fire {r : Routine} {target_opt : Option DateTime} {now : DateTime}
    (s : Store) (hf : should_generate_today r target_opt now = .ok true)
    (hclean : ∀ tpl ∈ r.task_templates, pyStrip tpl.title ≠ "") :
    ∃ ts s2, generate_tasks r s target_opt now =
        .ok (ts, { r with last_generated := some now }, s2) ∧
      ts.length = (if 1 < r.task_templates.length then 1 else 0) + r.task_templates.length := by
  unfold generate_tasks
  rw [hf]
  dsimp only
  by_cases hlen : 1 < r.task_templates.length
  · rw [if_pos hlen]
    obtain ⟨parent, s1, hct, hpti, hppid, hpida⟩ :=
      create_task_ok s
        (r.name ++ " - " ++ formatYMD (target_opt.getD (truncateMidnight now)).date)
        r.description r.user_id none
        (pyStrip_dash_ne_empty r.name
          (formatYMD (target_opt.getD (truncateMidnight now)).date))
    rw [hct]
    dsimp only
    obtain ⟨children, s2, hgen, hmap, hpids, hlens⟩ :=
      generate_from_templates_ok r (target_opt.getD (truncateMidnight now)) parent.task_id
        (r.task_templates.length == 1) r.task_templates s1
        (templates_cond_of_clean (target_opt.getD (truncateMidnight now)) hclean)
    rw [hgen]
    exact ⟨parent :: children, s2, rfl, by simp [hlens, if_pos hlen]; omega⟩
  · rw [if_neg hlen]
    obtain ⟨children, s2, hgen, hmap, hpids, hlens⟩ :=
      generate_from_templates_ok r (target_opt.getD (truncateMidnight now)) none
        (r.task_templates.length == 1) r.task_templates s
        (templates_cond_of_clean (target_opt.getD (truncateMidnight now)) hclean)
    rw [hgen]
    exact ⟨children, s2, rfl, by simp [hlens, if_neg hlen]⟩

/-! ### Support lemmas: the completion cascade on the task tree -/

mutual

theorem subtree_completed_mark (now : DateTime) :
    ∀ t, subtree_completed (mark_completed true now t) = true
  | .mk c ca ua ch => by
    simp [mark_completed, subtree_completed, forest_completed_mark now ch]

theorem forest_completed_mark (now : DateTime) :
    ∀ ts, forest_completed (mark_completed_list true now ts) = true
  | [] => by simp [mark_completed_list, forest_completed]
  | t :: ts => by
    simp [mark_completed_list, forest_completed, subtree_completed_mark now t,
      forest_completed_mark now ts]

end

theorem forest_completed_mem {ts : List TNode} (h : forest_completed ts = true) :
    ∀ x ∈ ts, subtree_completed x = true := by
  induction ts with
  | nil => intro x hx; cases hx
  | cons t ts ih =>
    simp only [forest_completed, Bool.and_eq_true] at h
    intro x hx
    cases hx with
    | head => exact h.1
    | tail _ hx => exact ih h.2 x hx

theorem subtree_completed_self {t : TNode} (h : subtree_completed t = true) :
    t.completed = true := by
  cases t with
  | mk c ca ua ch => simp only [subtree_completed, Bool.and_eq_true] at h; exact h.1

theorem subtree_completed_children {t : TNode} (h : subtree_completed t = true) :
    ∀ x ∈ t.children, subtree_completed x = true := by
  cases t with
  | mk c ca ua ch =>
    simp only [subtree_completed, Bool.and_eq_true] at h
    exact forest_completed_mem h.2

theorem subtree_completed_desc {d t : TNode} (h : subtree_completed t = true)
    (hd : Descendant d t) : subtree_completed d = true := by
  induction hd with
  | child hmem => exact subtree_completed_children h _ hmem
  | step hmem _ ih => exact ih (subtree_completed_children h _ hmem)

/-! ### Concrete fixtures for witnesses and counterexamples -/

/-- The empty task store. -/
def store0 : Store := ⟨0, []⟩

/-- 2024-03-01 at midnight (a Friday). -/
def d301 : DateTime := ⟨⟨2024, 3, 1⟩, 0⟩

/-- A wall-clock instant on 2024-03-01. -/
def now301 : DateTime := ⟨⟨2024, 3, 1⟩, 540⟩

/-- An active MONTHLY routine starting 2024-01-31 with interval 1. -/
def monthlyRoutine : Routine :=
  { routine_id := some 1, name := "Rent", description := "", user_id := some 1,
    repeat_type := .monthly, is_active := true, last_generated := none,
    start_date := ⟨⟨2024, 1, 31⟩, 0⟩, end_date := none, preferred_time := none,
    task_templates := [⟨"Pay rent", ""⟩], custom_days := [], repeat_interval := 1 }

/-- An active DAILY routine with `repeat_interval = 0`. -/
def zeroIntervalRoutine : Routine :=
  { routine_id := some 2, name := "Z", description := "", user_id := some 1,
    repeat_type := .daily, is_active := true, last_generated := none,
    start_date := ⟨⟨2024, 1, 1⟩, 0⟩, end_date := none, preferred_time := none,
    task_templates := [⟨"Stretch", "s"⟩], custom_days := [], repeat_interval := 0 }

/-- An active DAILY routine with a single template titled `"Stretch"`. -/
def stretchRoutine : Routine :=
  { routine_id := some 7, name := "Health", description := "", user_id := some 3,
    repeat_type := .daily, is_active := true, last_generated := none,
    start_date := ⟨⟨2024, 3, 1⟩, 0⟩, end_date := none, preferred_time := none,
    task_templates := [⟨"Stretch", "s"⟩], custom_days := [], repeat_interval := 1 }

/-- A routine named "Morning" with templates titled `" A "` and `"B"`. -/
def morningRoutine : Routine :=
  { stretchRoutine with name := "Morning", task_templates := [⟨" A ", "x"⟩, ⟨"B", "y"⟩] }

/-- A routine with two templates, one of them blank-titled. -/
def blankTitleRoutine : Routine :=
  { stretchRoutine with task_templates := [⟨"", "x"⟩, ⟨"B", "y"⟩] }

/-- An inactive copy of `stretchRoutine`. -/
def inactiveRoutine : Routine := { stretchRoutine with is_active := false }

/-- A copy of `stretchRoutine` whose validity window ends 2024-03-05. -/
def endedRoutine : Routine := { stretchRoutine with end_date := some ⟨⟨2024, 3, 5⟩, 0⟩ }

/-! ### Claims -/

/-- Claim C1 (code bug).  The claim states that for MONTHLY routines the
pattern matcher returns true iff the day-of-month matches the start date
and a whole number of `repeat_interval` months has elapsed, and in
particular that a routine starting on day 31 never fires in February.
The code does the opposite: its misplaced closing parenthesis applies
`% repeat_interval == 0` to the whole `and`-expression, so on
2024-02-15 (day 15 ≠ 31) the matcher computes `False % 1 == 0`, which is
true, and `should_fire` fires on this February date even though the
claimed formula evaluates to false. -/
theorem C1_monthly_pattern_code_bug :
    should_generate_today monthlyRoutine (some ⟨⟨2024, 2, 15⟩, 0⟩) ⟨⟨2024, 2, 15⟩, 60⟩ =
        .ok true ∧
      monthly_claim_matches monthlyRoutine ⟨⟨2024, 2, 15⟩, 0⟩ = false := by
  decide

/-- Claim C3, counterexample.  The evaluator is not total over every
integer `repeat_interval`: with `repeat_interval = 0` and a DAILY
pattern the guard checks pass and `days_since_start % 0` raises
ZeroDivisionError instead of returning a boolean. -/
theorem C3_counterexample_interval_zero :
    should_generate_today zeroIntervalRoutine (some ⟨⟨2024, 1, 2⟩, 0⟩) ⟨⟨2024, 1, 2⟩, 60⟩ =
      .error "ZeroDivisionError" := by
  decide

/-- Claim C3, amended.  For every routine state whose `repeat_interval`
is nonzero, and every target date and repeat kind, the evaluator is
total: it returns a boolean and never raises. -/
theorem C3_evaluator_total (r : Routine) (target_opt : Option DateTime) (now : DateTime)
    (h : r.repeat_interval ≠ 0) :
    ∃ b, should_generate_today r target_opt now = .ok b :=
  should_total r target_opt now h

/-- Witness for C3 at a concrete routine with interval 1. -/
theorem C3_evaluator_total_witness :
    ∃ b, should_generate_today stretchRoutine (some d301) now301 = .ok b :=
  C3_evaluator_total stretchRoutine (some d301) now301 (by decide)

/-- Claim C5: `should_fire` is false whenever the routine is inactive,
whenever the target date is strictly before the start date, and whenever
an end date exists and the target date is strictly after it, regardless
of the repeat pattern. -/
theorem C5_guard_checks (r : Routine) (t now : DateTime) :
    (r.is_active = false → should_generate_today r (some t) now = .ok false) ∧
      (DateTime.lt t r.start_date = true → should_generate_today r (some t) now = .ok false) ∧
      (∀ e, r.end_date = some e → DateTime.lt e t = true →
        should_generate_today r (some t) now = .ok false) := by
  refine ⟨?_, ?_, ?_⟩
  · intro h
    unfold should_generate_today
    rw [if_pos h]
  · intro h
    unfold should_generate_today
    dsimp only
    split_ifs <;> simp_all
  · intro e he h
    unfold should_generate_today
    dsimp only
    split_ifs with h1 h2 h3 <;> try rfl
    exact absurd (by simp [end_date_blocks, he, h] : end_date_blocks r t = true) h3

/-- Witness for C5: an inactive routine, a too-early date, and a date
past the end date, each at concrete inputs. -/
theorem C5_guard_checks_witness :
    should_generate_today inactiveRoutine (some d301) now301 = .ok false ∧
      should_generate_today stretchRoutine (some ⟨⟨2024, 2, 28⟩, 0⟩) now301 = .ok false ∧
      should_generate_today endedRoutine (some ⟨⟨2024, 3, 10⟩, 0⟩) now301 = .ok false :=
  ⟨(C5_guard_checks inactiveRoutine d301 now301).1 (by decide),
    (C5_guard_checks stretchRoutine ⟨⟨2024, 2, 28⟩, 0⟩ now301).2.1 (by decide),
    (C5_guard_checks endedRoutine ⟨⟨2024, 3, 10⟩, 0⟩ now301).2.2 ⟨⟨2024, 3, 5⟩, 0⟩
      (by decide) (by decide)⟩

/-- Claim C6: whenever the evaluator returns false, `generate` returns
the empty list and has no side effects: the store is unchanged (no task
created or updated) and the routine, including `last_generated`, is
unchanged. -/
theorem C6_no_fire_no_side_effects (r : Routine) (s : Store)
    (target_opt : Option DateTime) (now : DateTime)
    (h : should_generate_today r target_opt now = .ok false) :
    generate_tasks r s target_opt now = .ok ([], r, s) :=
  generate_tasks_not_fire s h

/-- Witness for C6 at an inactive routine. -/
theorem C6_no_fire_no_side_effects_witness :
    generate_tasks inactiveRoutine store0 (some d301) now301 = .ok ([], inactiveRoutine, store0) :=
  C6_no_fire_no_side_effects inactiveRoutine store0 (some d301) now301 (by decide)

/-- Claim C9: marking a task complete sets `completed = true` on the
task itself and, transitively, on every descendant in its children
tree. -/
theorem C9_completion_cascades (t : TNode) (now : DateTime) :
    (mark_completed true now t).completed = true ∧
      ∀ d, Descendant d (mark_completed true now t) → d.completed = true := by
  refine ⟨?_, fun d hd => ?_⟩
  · cases t with
    | mk c ca ua ch => simp [mark_completed, TNode.completed]
  · exact subtree_completed_self
      (subtree_completed_desc (subtree_completed_mark now t) hd)

/-- A one-child tree for the C9 witness. -/
def leafNode : TNode := .mk false none d301 []

/-- Parent of `leafNode`, initially not completed. -/
def parentNode : TNode := .mk false none d301 [leafNode]

/-- The marked child node. -/
def markedLeaf : TNode := .mk true (some now301) now301 []

/-- Witness for C9: the concrete child of the concrete marked parent is
completed. -/
theorem C9_completion_cascades_witness :
    (mark_completed true now301 parentNode).completed = true ∧ markedLeaf.completed = true :=
  ⟨(C9_completion_cascades parentNode now301).1,
    (C9_completion_cascades parentNode now301).2 markedLeaf
      (Descendant.child (List.mem_singleton_self markedLeaf))⟩

/-- Claim C10: `mark_completed(False)` clears the task's own flag and
`completed_at`, and leaves the children (hence every descendant)
entirely unchanged: un-completion does not cascade. -/
theorem C10_uncomplete_does_not_cascade (t : TNode) (now : DateTime) :
    (mark_completed false now t).completed = false ∧
      (mark_completed false now t).completed_at = none ∧
      (mark_completed false now t).children = t.children := by
  cases t with
  | mk c ca ua ch =>
    refine ⟨?_, ?_, ?_⟩ <;>
      simp [mark_completed, TNode.completed, TNode.completed_at, TNode.children]

/-- Claim C2: for a routine that fires on target date `t` (with at least
one template, all non-blank), generating with wall clock `now1` on the
same calendar date returns a non-empty list, sets `last_generated` to
the wall-clock instant `now1` (not to `t`), and a second generation call
for the same calendar date returns the empty list with no further state
change; moreover, with the other guards passing, `should_fire` is false
exactly when `last_generated`'s calendar date equals the target's. -/
theorem C2_generate_idempotent_per_date (r : Routine) (s : Store) (t now1 now2 : DateTime)
    (hfire : should_generate_today r (some t) now1 = .ok true)
    (hne : r.task_templates ≠ [])
    (hclean : ∀ tpl ∈ r.task_templates, pyStrip tpl.title ≠ "")
    (hday : now1.date = t.date) :
    ∃ ts s1, generate_tasks r s (some t) now1 =
        .ok (ts, { r with last_generated := some now1 }, s1) ∧ ts ≠ [] ∧
      generate_tasks { r with last_generated := some now1 } s1 (some t) now2 =
        .ok ([], { r with last_generated := some now1 }, s1) ∧
      ∀ lg n, should_generate_today { r with last_generated := some lg } (some t) n =
          .ok false ↔ lg.date = t.date := by
  obtain ⟨h1, h2, h3, h4, h5⟩ := should_fire_inv hfire
  obtain ⟨ts, s1, hgen, hlen⟩ := generate_tasks_fire s hfire hclean
  have hiff : ∀ lg n : DateTime,
      should_generate_today { r with last_generated := some lg } (some t) n = .ok false ↔
        lg.date = t.date := by
    intro lg n
    constructor
    · intro hok
      by_contra hneq
      have hag : already_generated { r with last_generated := some lg } t = false := by
        simp [already_generated, hneq]
      rw [should_fire_of { r with last_generated := some lg } t n h1 h2 h3 hag,
        matches_lastgen_congr, h5] at hok
      exact absurd hok (by simp)
    · intro hdeq
      refine should_blocked { r with last_generated := some lg } t n h1 ?_ h2 h3
      simp [already_generated, hdeq]
  have hts : ts ≠ [] := by
    intro hnil
    rw [hnil] at hlen
    simp only [List.length_nil] at hlen
    split at hlen
    · omega
    · exact hne (List.eq_nil_of_length_eq_zero (by omega))
  exact ⟨ts, s1, hgen, hts,
    generate_tasks_not_fire s1 ((hiff now1 now2).mpr hday), hiff⟩

/-- Witness for C2 at the single-template `stretchRoutine`. -/
theorem C2_generate_idempotent_per_date_witness :
    ∃ ts s1, generate_tasks stretchRoutine store0 (some d301) now301 =
        .ok (ts, { stretchRoutine with last_generated := some now301 }, s1) ∧ ts ≠ [] ∧
      generate_tasks { stretchRoutine with last_generated := some now301 } s1 (some d301)
          ⟨⟨2024, 3, 1⟩, 777⟩ =
        .ok ([], { stretchRoutine with last_generated := some now301 }, s1) ∧
      ∀ lg n, should_generate_today { stretchRoutine with last_generated := some lg }
          (some d301) n = .ok false ↔ lg.date = d301.date :=
  C2_generate_idempotent_per_date stretchRoutine store0 d301 now301 ⟨⟨2024, 3, 1⟩, 777⟩
    (by decide) (by decide) (by decide) (by decide)

/-- Claim C4, counterexample.  The claim promises the template titles
verbatim for a multi-template routine, but the task store strips
whitespace: with templates `" A "` and `"B"` the generated children are
titled `"A"` and `"B"`, not `" A "` and `"B"`. -/
theorem C4_counterexample_title_stripped :
    (generate_tasks morningRoutine store0 (some d301) now301).toOption.map
        (fun x => x.1.map Task.title) = some ["Morning - 2024-03-01", "A", "B"] ∧
      (generate_tasks morningRoutine store0 (some d301) now301).toOption.map
        (fun x => x.1.map Task.title) ≠ some ["Morning - 2024-03-01", " A ", "B"] := by
  decide

/-- Claim C4, amended.  For every firing routine whose template titles
are non-blank: with exactly one template the result is a single task
titled with the stripped date-suffixed template title and no parent;
with more than one template the result is a parent task titled with the
stripped `"{name} - YYYY-MM-DD"`, followed by one task per template in
stored order, titled with the stripped template title, each child's
`parent_id` equal to the parent's id (titles are verbatim whenever they
carry no surrounding whitespace, since stripping is then the
identity). -/
theorem C4_generation_shape (r : Routine) (s : Store) (t now : DateTime)
    (hfire : should_generate_today r (some t) now = .ok true)
    (hclean : ∀ tpl ∈ r.task_templates, pyStrip tpl.title ≠ "") :
    (∀ tpl, r.task_templates = [tpl] →
      ∃ task r1 s1, generate_tasks r s (some t) now = .ok ([task], r1, s1) ∧
        task.title = pyStrip (tpl.title ++ " - " ++ formatYMD t.date) ∧
        task.parent_id = none) ∧
      (1 < r.task_templates.length →
        ∃ parent children r1 s1,
          generate_tasks r s (some t) now = .ok (parent :: children, r1, s1) ∧
          parent.title = pyStrip (r.name ++ " - " ++ formatYMD t.date) ∧
          parent.parent_id = none ∧ parent.task_id = some s.nextId ∧
          children.map Task.title = r.task_templates.map (fun tpl => pyStrip tpl.title) ∧
          (∀ c ∈ children, c.parent_id = parent.task_id) ∧
          children.length = r.task_templates.length) := by
  constructor
  · intro tpl heq
    have hlen1 : r.task_templates.length = 1 := by rw [heq]; rfl
    have hnot : ¬ 1 < r.task_templates.length := by omega
    unfold generate_tasks
    rw [hfire]
    dsimp only
    simp only [Option.getD_some]
    rw [if_neg hnot]
    obtain ⟨tasks, s2, hgen, hmap, hpids, hlens⟩ :=
      generate_from_templates_ok r t none (r.task_templates.length == 1) r.task_templates s
        (templates_cond_of_clean t hclean)
    rw [hgen]
    have hsingle : (r.task_templates.length == 1 : Bool) = true := by simp [hlen1]
    obtain ⟨task, htask⟩ := List.length_eq_one.mp (by rw [hlens, hlen1])
    subst htask
    refine ⟨task, _, s2, rfl, ?_, ?_⟩
    · rw [heq] at hmap
      simp only [hsingle, if_true, List.map_cons, List.map_nil] at hmap
      simpa using hmap
    · exact hpids task (by simp)
  · intro hlen
    unfold generate_tasks
    rw [hfire]
    dsimp only
    simp only [Option.getD_some]
    rw [if_pos hlen]
    obtain ⟨parent, s1, hct, hpti, hppid, hpid⟩ :=
      create_task_ok s (r.name ++ " - " ++ formatYMD t.date) r.description r.user_id none
        (pyStrip_dash_ne_empty r.name (formatYMD t.date))
    rw [hct]
    dsimp only
    obtain ⟨children, s2, hgen, hmap, hpids, hlens⟩ :=
      generate_from_templates_ok r t parent.task_id (r.task_templates.length == 1)
        r.task_templates s1 (templates_cond_of_clean t hclean)
    rw [hgen]
    have hsingle : (r.task_templates.length == 1 : Bool) = false := by
      simp only [beq_eq_false_iff_ne, ne_eq]
      omega
    refine ⟨parent, children, _, s2, rfl, hpti, hppid, hpid, ?_, hpids, hlens⟩
    rw [hmap]
    simp [hsingle]

/-- Witness for C4: a concrete two-template routine with clean titles. -/
theorem C4_generation_shape_witness :
    ∃ parent children r1 s1,
      generate_tasks { morningRoutine with task_templates := [⟨"A", "x"⟩, ⟨"B", "y"⟩] }
          store0 (some d301) now301 = .ok (parent :: children, r1, s1) ∧
      parent.title = pyStrip ("Morning" ++ " - " ++ formatYMD d301.date) ∧
      parent.parent_id = none ∧ parent.task_id = some store0.nextId ∧
      children.map Task.title =
        ([⟨"A", "x"⟩, ⟨"B", "y"⟩] : List Template).map (fun tpl => pyStrip tpl.title) ∧
      (∀ c ∈ children, c.parent_id = parent.task_id) ∧
      children.length = ([⟨"A", "x"⟩, ⟨"B", "y"⟩] : List Template).length :=
  (C4_generation_shape { morningRoutine with task_templates := [⟨"A", "x"⟩, ⟨"B", "y"⟩] }
    store0 d301 now301 (by decide) (by decide)).2 (by decide)

/-- Claim C7: the scheduler facade invokes the generator on each routine
of the storage-returned list in order, persists (passes to routine
storage) exactly the routines whose generation produced at least one
task, and returns the concatenation of all generated tasks in
per-routine order.  `generator_chain` is the per-routine recomputation
the claim describes. -/
theorem C7_facade_concat_persist (routines : List Routine) (s : Store)
    (target_opt : Option DateTime) (now : DateTime)
    (pairs : List (List Task × Routine)) (s2 : Store)
    (h : generator_chain routines s target_opt now = .ok (pairs, s2)) :
    generate_routine_tasks routines s target_opt now =
      .ok ((pairs.map Prod.fst).flatten,
        (pairs.filter (fun p => !p.1.isEmpty)).map Prod.snd, s2) := by
  induction routines generalizing s pairs with
  | nil =>
    unfold generator_chain at h
    obtain ⟨rfl, rfl⟩ : pairs = [] ∧ s = s2 := by
      cases h
      exact ⟨rfl, rfl⟩
    rfl
  | cons r rest ih =>
    unfold generator_chain at h
    unfold generate_routine_tasks
    cases hgen : generate_tasks r s target_opt now with
    | error e =>
      rw [hgen] at h
      dsimp only at h
      cases h
    | ok trip =>
      obtain ⟨ts, r1, s1⟩ := trip
      rw [hgen] at h
      dsimp only at h ⊢
      cases hchain : generator_chain rest s1 target_opt now with
      | error e =>
        rw [hchain] at h
        dsimp only at h
        cases h
      | ok packed =>
        obtain ⟨restPairs, s3⟩ := packed
        rw [hchain] at h
        dsimp only at h
        obtain ⟨rfl, rfl⟩ : pairs = (ts, r1) :: restPairs ∧ s3 = s2 := by
          cases h
          exact ⟨rfl, rfl⟩
        rw [ih s1 restPairs hchain]
        cases hts : ts.isEmpty <;>
          simp [hts, List.filter_cons]

/-- The task generated from `stretchRoutine` on 2024-03-01. -/
def stretchTask : Task :=
  { task_id := some 0, title := "Stretch - 2024-03-01", description := "s",
    completed := false, parent_id := none, user_id := some 3, due_date := none }

/-- `stretchRoutine` after its 2024-03-01 generation. -/
def stretchGenerated : Routine := { stretchRoutine with last_generated := some now301 }

/-- The store after the 2024-03-01 generation. -/
def store1 : Store := ⟨1, [stretchTask]⟩

/-- The generator chain of `[stretchRoutine]` on 2024-03-01. -/
def chainPairs : List (List Task × Routine) := [([stretchTask], stretchGenerated)]

/-- Witness for C7 at the one-routine list `[stretchRoutine]`. -/
theorem C7_facade_concat_persist_witness :
    generate_routine_tasks [stretchRoutine] store0 (some d301) now301 =
      .ok ((chainPairs.map Prod.fst).flatten,
        (chainPairs.filter (fun p => !p.1.isEmpty)).map Prod.snd, store1) :=
  C7_facade_concat_persist [stretchRoutine] store0 (some d301) now301 chainPairs store1
    (by decide)

/-- Claim C8, counterexample.  The generator is not free of validation
errors: a firing routine with two templates, one of them blank-titled,
makes `create_task` raise its creation-time `ValueError` from inside
`generate`. -/
theorem C8_counterexample_blank_template :
    generate_tasks blankTitleRoutine store0 (some d301) now301 =
        .error "Task title cannot be empty" ∧
      is_validation_error "Task title cannot be empty" := by
  constructor
  · decide
  · exact Or.inl rfl

/-- Claim C8, amended.  The evaluator never raises a validation error
(its only failure is ZeroDivisionError), and the generator never raises
a validation error provided every template title is non-blank after
stripping. -/
theorem C8_no_validation_errors (r : Routine) (s : Store)
    (target_opt : Option DateTime) (now : DateTime) :
    (∀ e, should_generate_today r target_opt now = .error e → ¬ is_validation_error e) ∧
      ((∀ tpl ∈ r.task_templates, pyStrip tpl.title ≠ "") →
        ∀ e, generate_tasks r s target_opt now = .error e → ¬ is_validation_error e) := by
  constructor
  · intro e he
    rw [should_error_inv he]
    decide
  · intro hclean e he
    cases hshould : should_generate_today r target_opt now with
    | error e0 =>
      have hprop : generate_tasks r s target_opt now = .error e0 := by
        unfold generate_tasks
        rw [hshould]
      rw [hprop] at he
      cases he
      rw [should_error_inv hshould]
      decide
    | ok b =>
      cases b with
      | false =>
        rw [generate_tasks_not_fire s hshould] at he
        cases he
      | true =>
        obtain ⟨ts, s2, hgen, hlen⟩ := generate_tasks_fire s hshould hclean
        rw [hgen] at he
        cases he

/-- Witness for C8 at the interval-zero routine, whose only failure is
the non-validation ZeroDivisionError. -/
theorem C8_no_validation_errors_witness :
    ¬ is_validation_error "ZeroDivisionError" ∧ ¬ is_validation_error "ZeroDivisionError" :=
  ⟨(C8_no_validation_errors zeroIntervalRoutine store0 (some ⟨⟨2024, 1, 2⟩, 0⟩)
      ⟨⟨2024, 1, 2⟩, 60⟩).1 "ZeroDivisionError" (by decide),
    (C8_no_validation_errors zeroIntervalRoutine store0 (some ⟨⟨2024, 1, 2⟩, 0⟩)
      ⟨⟨2024, 1, 2⟩, 60⟩).2 (by decide) "ZeroDivisionError" (by decide)⟩

end TodoApp
